import Mathlib

/-!
Verification of the per-environment task-run dispatcher
(`EnvironmentQueueConsumer` and the retry-event recording of
`EventRepository`) against its natural-language specification.

The TypeScript source is shallowly embedded: every method that the claims
touch is translated into a pure Lean function over explicit state, with each
external effect (queue dequeue, database reads and writes, transport send)
represented by its result value supplied through a `World` record, and each
emitted effect (queue acknowledgements, created rows, sent messages, span
mutations) collected in the function's result record.  Timestamps are `Int`
milliseconds, database ids are `String`s.
-/

namespace EnvConsumer

/-- Retry options stored on a `BackgroundWorkerTask.retryConfig` column
(`{maxAttempts, factor, minTimeoutInMs, maxTimeoutInMs, randomize}`); every
field optional, mirroring the zod `RetryOptions` partial schema. -/
structure RetryOpts where
  maxAttempts : Option Nat
  factor : Option Nat
  minTimeoutInMs : Option Nat
  maxTimeoutInMs : Option Nat
  randomize : Option Bool
deriving Repr, DecidableEq

/-- A `BackgroundWorkerTask` row (fields used by the consumer). -/
structure BackgroundWorkerTask where
  id : String
  slug : String
  filePath : String
  exportName : String
  workerId : String
  retryConfig : Option RetryOpts
deriving Repr, DecidableEq

/-- A `BackgroundWorker` row together with its `tasks` include
(`BackgroundWorkerWithTasks` in the source). -/
structure BackgroundWorker where
  id : String
  friendlyId : String
  version : String
  tasks : List BackgroundWorkerTask
deriving Repr, DecidableEq

/-- The organization part of `AuthenticatedEnvironment`. -/
structure OrgInfo where
  id : String
  slug : String
  title : String
deriving Repr, DecidableEq

/-- The project part of `AuthenticatedEnvironment`. -/
structure ProjectInfo where
  id : String
  slug : String
  name : String
  externalRef : String
deriving Repr, DecidableEq

/-- `AuthenticatedEnvironment`: tenant context for one connection. -/
structure AuthenticatedEnvironment where
  id : String
  slug : String
  type : String
  organization : OrgInfo
  project : ProjectInfo
deriving Repr, DecidableEq

/-- The registry `Map<string, BackgroundWorkerWithTasks>` is modelled as an
association list in insertion order (a JavaScript `Map` iterates in insertion
order, and `set` on an existing key keeps the original position). -/
abbrev Registry := List (String × BackgroundWorker)

/-- `Map.set`: overwrite in place when the key exists, else append. -/
def mapSet (m : Registry) (k : String) (v : BackgroundWorker) : Registry :=
  if m.any (fun p => p.1 == k) then
    m.map (fun p => if p.1 == k then (k, v) else p)
  else
    m ++ [(k, v)]

/-- `Map.get`. -/
def mapGet (m : Registry) (k : String) : Option BackgroundWorker :=
  (m.find? (fun p => p.1 == k)).map (fun p => p.2)

/-- `Map.values()` in insertion order. -/
def mapValues (m : Registry) : List BackgroundWorker :=
  m.map (fun p => p.2)

/-- `#getLatestBackgroundWorker`: `Array.from(values()).reduce` keeping
`acc` when `acc.version > curr.version` (raw JavaScript string comparison,
which for these ASCII version strings coincides with Lean's lexicographic
`String` order), else taking `curr`; `undefined` on an empty registry. -/
def getLatestBackgroundWorker (workers : List BackgroundWorker) : Option BackgroundWorker :=
  match workers with
  | [] => none
  | w :: ws =>
    some (ws.foldl (fun acc curr => if acc.version > curr.version then acc else curr) w)

/-- Decimal value of a digit run. -/
def natOfDigits (cs : List Char) : Nat :=
  cs.foldl (fun acc c => acc * 10 + (c.toNat - 48)) 0

/-- Modelled from the spec: the two dotted segments of a `YYYYMMDD.N`
version string, read numerically. -/
def versionSegments (v : String) : Nat × Nat :=
  let cs := v.toList
  (natOfDigits (cs.takeWhile (fun c => c != '.')),
   natOfDigits ((cs.dropWhile (fun c => c != '.')).drop 1))

/-- Modelled from the spec: numeric comparison on the two dotted segments
(the ordering the spec says `latest()` must use, e.g.
`20240101.10 > 20240101.2`). -/
def numericVersionLt (a b : String) : Bool :=
  let x := versionSegments a
  let y := versionSegments b
  x.1 < y.1 || (x.1 == y.1 && x.2 < y.2)

/-- A `TaskRun` row (fields read by the consumer). -/
structure TaskRun where
  id : String
  friendlyId : String
  taskIdentifier : String
  lockedToVersionId : Option String
  queue : String
  payload : String
  payloadType : String
  context : String
  createdAt : Int
  traceContext : String
  lockedAt : Option Int
  lockedById : Option String
deriving Repr, DecidableEq

/-- The single attempt row returned by the lock update's
`attempts: take 1, orderBy number desc` include. -/
structure AttemptSummary where
  number : Nat
deriving Repr, DecidableEq

/-- A `TaskRunTag` row. -/
structure TagRec where
  name : String
deriving Repr, DecidableEq

/-- The row returned by the locking `taskRun.update` (run fields plus the
`attempts` take-1 and `tags` includes). -/
structure LockedTaskRun extends TaskRun where
  lastAttempt : Option AttemptSummary
  tags : List TagRec
deriving Repr, DecidableEq

/-- A `TaskQueue` row. -/
structure TaskQueue where
  id : String
  friendlyId : String
  name : String
deriving Repr, DecidableEq

/-- A created `TaskRunAttempt` row. -/
structure TaskRunAttempt where
  id : String
  number : Nat
  friendlyId : String
  taskRunId : String
  startedAt : Option Int
  createdAt : Int
  backgroundWorkerId : String
  backgroundWorkerTaskId : String
  status : String
  queueId : String
deriving Repr, DecidableEq

/-- The queue message body: the zod discriminated union accepts only
`{type: "EXECUTE", taskIdentifier}`; anything else fails `safeParse`. -/
inductive MessageData where
  | execute (taskIdentifier : String)
  | malformed (raw : String)
deriving Repr, DecidableEq

/-- A dequeued queue message. -/
structure QueueMessage where
  messageId : String
  data : MessageData
deriving Repr, DecidableEq

/-- `MessageBody.safeParse`: succeeds exactly on the `EXECUTE` variant. -/
def parseMessageBody : MessageData → Option String
  | .execute t => some t
  | .malformed _ => none

/-- An OpenTelemetry span held on the consumer, reduced to its observable
mutations: recorded attributes, recorded exceptions, and whether `end()` was
called. -/
structure SpanRec where
  spanId : Nat
  attrs : List (String × Nat)
  exceptions : List String
  hasEnded : Bool
deriving Repr, DecidableEq

/-- The mutable fields of `EnvironmentQueueConsumer` (underscore-prefixed in
the source) together with its immutable `env` and resolved options. -/
structure ConsumerState where
  env : AuthenticatedEnvironment
  backgroundWorkers : Registry
  enabled : Bool
  maximumItemsPerTrace : Nat
  traceTimeoutSeconds : Nat
  perTraceCountdown : Option Nat
  lastNewTrace : Option Int
  currentSpanCtx : Option Nat
  taskFailures : Nat
  taskSuccesses : Nat
  currentSpan : Option SpanRec
  endSpanInNextIteration : Bool
deriving Repr, DecidableEq

deriving instance DecidableEq for Except

/-- The results of the external operations one `#doWorkInternal` iteration
performs, in source order.  Each fallible operation is an `Except`: `.error`
models the underlying promise rejecting (an exception), `.ok` its resolved
value (`none` for an empty dequeue or a missing row). -/
structure World where
  dequeued : Except String (Option QueueMessage)
  taskRunRow : Except String (Option TaskRun)
  lockResult : Except String (Option LockedTaskRun)
  queueRow : Except String (Option TaskQueue)
  enabledAtAbortCheck : Bool
  insertAttempt : Except String Unit
  freshAttemptId : String
  freshFriendlyAttemptId : String
  sendResult : Except String Unit
  now : Int
deriving Repr, DecidableEq

/-- Terminal queue dispositions issued during an iteration. -/
inductive QueueAction where
  | ackMsg (messageId : String)
  | nackMsg (messageId : String) (retryAt : Option Int)
deriving Repr, DecidableEq

/-- How an iteration hands control back: a `setTimeout(() => this.#doWork(),
delayMs)`, a plain `return` with no timer, or an exception propagating to the
caller. -/
inductive IterExit where
  | reschedule (delayMs : Nat)
  | stopped
  | thrown (e : String)
deriving Repr, DecidableEq

/-- The `execution` object assembled for the `EXECUTE_RUNS` payload,
flattened field-for-field from the source. -/
structure ExecutionDescriptor where
  taskId : String
  taskFilePath : String
  taskExportName : String
  attemptId : String
  attemptNumber : Nat
  attemptStartedAt : Int
  attemptBackgroundWorkerId : String
  attemptBackgroundWorkerTaskId : String
  attemptStatus : String
  runId : String
  runPayload : String
  runPayloadType : String
  runContext : String
  runCreatedAt : Int
  runTags : List String
  queueId : String
  queueName : String
  environmentId : String
  environmentSlug : String
  environmentType : String
  organizationId : String
  organizationSlug : String
  organizationName : String
  projectId : String
  projectRef : String
  projectSlug : String
  projectName : String
deriving Repr, DecidableEq

/-- The `BACKGROUND_WORKER_MESSAGE` sent over the websocket (its single
`EXECUTE_RUNS` payload inlined). -/
structure WorkerMessage where
  backgroundWorkerId : String
  execution : ExecutionDescriptor
  traceContext : String
deriving Repr, DecidableEq

/-- Everything observable about one `#doWorkInternal` iteration: the updated
consumer fields, the exit, the terminal queue actions issued, the attempt row
created (if any), the rollback transaction (run id unlocked, attempt id
deleted), the message sent, and the run row / attempt rows as the store
leaves them on the paths that touched them. -/
structure IterOutcome where
  state : ConsumerState
  exit : IterExit
  queueActions : List QueueAction
  createdAttempt : Option TaskRunAttempt
  rollback : Option (String × String)
  sent : Option WorkerMessage
  finalRun : Option TaskRun
  finalAttempts : List TaskRunAttempt
deriving Repr, DecidableEq

/-- An outcome with no store or transport effects. -/
def plainOutcome (s : ConsumerState) (exit : IterExit) (qa : List QueueAction) : IterOutcome :=
  { state := s, exit := exit, queueActions := qa, createdAttempt := none,
    rollback := none, sent := none, finalRun := none, finalAttempts := [] }

/-- Worker-version selection: pinned runs look up `lockedToVersionId` in the
registry, unpinned runs use `#getLatestBackgroundWorker`. -/
def resolveWorker (regs : Registry) (run : TaskRun) : Option BackgroundWorker :=
  match run.lockedToVersionId with
  | some v => mapGet regs v
  | none => getLatestBackgroundWorker (mapValues regs)

/-- `number = lockedTaskRun.attempts[0] ? attempts[0].number + 1 : 1`. -/
def nextAttemptNumber (lastAttempt : Option AttemptSummary) : Nat :=
  match lastAttempt with
  | some a => a.number + 1
  | none => 1

/-- One `#doWorkInternal` iteration, translated branch-for-branch from the
source.  Awaited operations whose promise rejects (`Except.error`) propagate
as `IterExit.thrown` unless the source wraps them in `try`, which it does
only for the transport send. -/
def doWorkInternal (s : ConsumerState) (w : World) : IterOutcome :=
  match w.dequeued with
  | .error e => plainOutcome s (.thrown e) []
  | .ok none =>
    -- no message: resume in 1000 ms
    plainOutcome s (.reschedule 1000) []
  | .ok (some message) =>
    match parseMessageBody message.data with
    | none =>
      -- parse failure: log, ack, resume in 100 ms
      plainOutcome s (.reschedule 100) [.ackMsg message.messageId]
    | some _taskIdentifier =>
      match w.taskRunRow with
      | .error e => plainOutcome s (.thrown e) []
      | .ok none =>
        -- missing run row: ack, resume in 100 ms
        plainOutcome s (.reschedule 100) [.ackMsg message.messageId]
      | .ok (some existingTaskRun) =>
        match resolveWorker s.backgroundWorkers existingTaskRun with
        | none =>
          -- no worker version available: ack, resume in 100 ms
          plainOutcome s (.reschedule 100) [.ackMsg message.messageId]
        | some backgroundWorker =>
          match backgroundWorker.tasks.find?
              (fun task => task.slug == existingTaskRun.taskIdentifier) with
          | none =>
            -- no matching background task: log, ack, resume in 100 ms
            plainOutcome s (.reschedule 100) [.ackMsg message.messageId]
          | some backgroundTask =>
            match w.lockResult with
            | .error e => plainOutcome s (.thrown e) []
            | .ok none =>
              -- failed lock update: log, ack, resume in 100 ms
              plainOutcome s (.reschedule 100) [.ackMsg message.messageId]
            | .ok (some lockedTaskRun) =>
              match w.queueRow with
              | .error e => plainOutcome s (.thrown e) []
              | .ok none =>
                -- queue row missing: nack, resume in 1000 ms
                plainOutcome s (.reschedule 1000) [.nackMsg message.messageId none]
              | .ok (some queue) =>
                if !w.enabledAtAbortCheck then
                  -- disabled since dequeue: nack and return
                  plainOutcome s .stopped [.nackMsg message.messageId none]
                else
                  match w.insertAttempt with
                  | .error e => plainOutcome s (.thrown e) []
                  | .ok _ =>
                    let taskRunAttempt : TaskRunAttempt :=
                      { id := w.freshAttemptId
                        number := nextAttemptNumber lockedTaskRun.lastAttempt
                        friendlyId := w.freshFriendlyAttemptId
                        taskRunId := lockedTaskRun.id
                        startedAt := some w.now
                        createdAt := w.now
                        backgroundWorkerId := backgroundTask.workerId
                        backgroundWorkerTaskId := backgroundTask.id
                        status := "EXECUTING"
                        queueId := queue.id }
                    let execution : ExecutionDescriptor :=
                      { taskId := backgroundTask.slug
                        taskFilePath := backgroundTask.filePath
                        taskExportName := backgroundTask.exportName
                        attemptId := taskRunAttempt.friendlyId
                        attemptNumber := taskRunAttempt.number
                        attemptStartedAt := (taskRunAttempt.startedAt).getD taskRunAttempt.createdAt
                        attemptBackgroundWorkerId := backgroundWorker.id
                        attemptBackgroundWorkerTaskId := backgroundTask.id
                        attemptStatus := "EXECUTING"
                        runId := lockedTaskRun.friendlyId
                        runPayload := lockedTaskRun.payload
                        runPayloadType := lockedTaskRun.payloadType
                        runContext := lockedTaskRun.context
                        runCreatedAt := lockedTaskRun.createdAt
                        runTags := lockedTaskRun.tags.map (fun tag => tag.name)
                        queueId := queue.friendlyId
                        queueName := queue.name
                        environmentId := s.env.id
                        environmentSlug := s.env.slug
                        environmentType := s.env.type
                        organizationId := s.env.organization.id
                        organizationSlug := s.env.organization.slug
                        organizationName := s.env.organization.title
                        projectId := s.env.project.id
                        projectRef := s.env.project.externalRef
                        projectSlug := s.env.project.slug
                        projectName := s.env.project.name }
                    let msg : WorkerMessage :=
                      { backgroundWorkerId := backgroundWorker.friendlyId
                        execution := execution
                        traceContext := lockedTaskRun.traceContext }
                    match w.sendResult with
                    | .ok _ =>
                      -- send succeeded; finally-block reschedules in 100 ms
                      { state := s
                        exit := .reschedule 100
                        queueActions := []
                        createdAttempt := some taskRunAttempt
                        rollback := none
                        sent := some msg
                        finalRun := some lockedTaskRun.toTaskRun
                        finalAttempts := [taskRunAttempt] }
                    | .error e =>
                      -- catch-block: record exception, flag rollover, run the
                      -- unlock+delete transaction, nack; finally reschedules
                      { state :=
                          { s with
                            currentSpan := s.currentSpan.map
                              (fun sp => { sp with exceptions := sp.exceptions ++ [e] })
                            endSpanInNextIteration := true }
                        exit := .reschedule 100
                        queueActions := [.nackMsg message.messageId none]
                        createdAttempt := some taskRunAttempt
                        rollback := some (lockedTaskRun.id, taskRunAttempt.id)
                        sent := none
                        finalRun := some
                          { lockedTaskRun.toTaskRun with lockedAt := none, lockedById := none }
                        finalAttempts := [] }

/-- The trace-window rollover condition at the top of `#doWork`:
`perTraceCountdown === 0`, or `Date.now() - lastNewTrace.getTime() >
traceTimeoutSeconds * 1000`, or `currentSpanContext === undefined`, or
`endSpanInNextIteration`.  (`#enable` always stamps `lastNewTrace` before the
first iteration; the `none` branch of the timeout test is unreachable in the
consumer's lifecycle and the theorems below hypothesise a stamped window.) -/
def traceExpired (s : ConsumerState) (now : Int) : Bool :=
  s.perTraceCountdown == some 0
    || (match s.lastNewTrace with
        | some t => decide ((s.traceTimeoutSeconds : Int) * 1000 < now - t)
        | none => true)
    || s.currentSpanCtx == none
    || s.endSpanInNextIteration

/-- Closing a window's span: annotate `tasks.period.failures` then
`tasks.period.successes` (source order), then `end()`. -/
def closeSpan (sp : SpanRec) (failures successes : Nat) : SpanRec :=
  { sp with
    attrs := sp.attrs ++ [("tasks.period.failures", failures), ("tasks.period.successes", successes)]
    hasEnded := true }

/-- The window-management prefix of `#doWork`: when the rollover condition
holds, close the current span (if any), open a fresh span under the root
context, and reset the countdown, the timestamp, both counters and the
rollover flag.  Returns the updated state and the span that was closed. -/
def doWorkWindowStep (s : ConsumerState) (now : Int) (freshSpanId : Nat) :
    ConsumerState × Option SpanRec :=
  if traceExpired s now then
    ({ s with
        currentSpan := some { spanId := freshSpanId, attrs := [], exceptions := [], hasEnded := false }
        currentSpanCtx := some freshSpanId
        perTraceCountdown := some s.maximumItemsPerTrace
        lastNewTrace := some now
        taskFailures := 0
        taskSuccesses := 0
        endSpanInNextIteration := false },
     s.currentSpan.map (fun sp => closeSpan sp s.taskFailures s.taskSuccesses))
  else (s, none)

/-- Everything observable about one `#doWork` call. -/
structure DoWorkOutcome where
  state : ConsumerState
  closedSpan : Option SpanRec
  inner : Option IterOutcome
  exit : IterExit
deriving Repr, DecidableEq

/-- `#doWork`: bail out when disabled, run the window step, run
`#doWorkInternal` under the window's context, then decrement the countdown
(skipped when the inner iteration threw, as the rejected await aborts the
method body). -/
def doWork (s : ConsumerState) (w : World) (freshSpanId : Nat) : DoWorkOutcome :=
  if !s.enabled then
    { state := s, closedSpan := none, inner := none, exit := .stopped }
  else
    let stepped := doWorkWindowStep s w.now freshSpanId
    let innerOutcome := doWorkInternal stepped.1 w
    match innerOutcome.exit with
    | .thrown e =>
      { state := innerOutcome.state, closedSpan := stepped.2,
        inner := some innerOutcome, exit := .thrown e }
    | ex =>
      { state :=
          { innerOutcome.state with
            perTraceCountdown := innerOutcome.state.perTraceCountdown.map (fun n => n - 1) }
        closedSpan := stepped.2
        inner := some innerOutcome
        exit := ex }

/-- `#enable`: a no-op when already enabled; otherwise set the flag, reset
the countdown, stamp `lastNewTrace`, zero both counters and start the first
`#doWork` chain.  The boolean reports whether a chain was started. -/
def enableConsumer (s : ConsumerState) (now : Int) : ConsumerState × Bool :=
  if s.enabled then (s, false)
  else
    ({ s with
        enabled := true
        perTraceCountdown := some s.maximumItemsPerTrace
        lastNewTrace := some now
        taskFailures := 0
        taskSuccesses := 0 }, true)

/-- `registerBackgroundWorker`: `fetched` is the result of the scoped
`findUnique`; a miss is a no-op, a hit stores the worker under its internal
`id` and calls `#enable`. -/
def registerBackgroundWorker (s : ConsumerState) (fetched : Option BackgroundWorker)
    (now : Int) : ConsumerState × Bool :=
  match fetched with
  | none => (s, false)
  | some backgroundWorker =>
    enableConsumer
      { s with
        backgroundWorkers := mapSet s.backgroundWorkers backgroundWorker.id backgroundWorker }
      now

/-- A trace-context carrier (`Record<string, string | undefined>` holding
`traceparent` / `tracestate`). -/
structure Carrier where
  traceparent : Option String
  tracestate : Option String
deriving Repr, DecidableEq

/-- `TaskRunExecutionResult`: `{ok:true, id, output, outputType}` or
`{ok:false, id, error, retry?}` with `retry = {timestamp}`. -/
structure TaskRunExecutionResult where
  ok : Bool
  id : String
  output : Option String
  outputType : Option String
  error : Option String
  retry : Option Int
deriving Repr, DecidableEq

/-- The part of the inbound `TaskRunExecution` that `taskRunCompleted`
reads: `execution.attempt.number`. -/
structure ExecutionInfo where
  attemptNumber : Nat
deriving Repr, DecidableEq

/-- The updated `TaskRunAttempt` row as `taskRunCompleted` sees it after its
`update` (with the `taskRun` and `backgroundWorkerTask` includes). -/
structure AttemptRowForCompletion where
  number : Nat
  taskRunId : String
  queueId : Option String
  taskRunTaskIdentifier : String
  taskRunQueueName : String
  taskRunTraceContext : Carrier
  retryConfig : Option RetryOpts
deriving Repr, DecidableEq

/-- The spread `{...defaultRetryOptions, ...RetryOptions.parse(stored)}`:
fields present on the stored config override the defaults. -/
def mergeRetryOpts (defaults stored : RetryOpts) : RetryOpts :=
  { maxAttempts := stored.maxAttempts <|> defaults.maxAttempts
    factor := stored.factor <|> defaults.factor
    minTimeoutInMs := stored.minTimeoutInMs <|> defaults.minTimeoutInMs
    maxTimeoutInMs := stored.maxTimeoutInMs <|> defaults.maxTimeoutInMs
    randomize := stored.randomize <|> defaults.randomize }

/-- The attribute bag handed to `eventRepository.recordEvent` (the style is
the nested `style: {icon}`; the retry properties and the regenerated
next-attempt metadata are kept as the fields the claims inspect). -/
structure TraceAttrs where
  runId : Option String
  styleIcon : Option String
  queueId : Option String
  queueName : Option String
  metaNextAttemptNumber : Option Nat
  propRetryAt : Option Int
  propFactor : Option Nat
  propMaxAttempts : Option Nat
  propMinTimeoutInMs : Option Nat
  propMaxTimeoutInMs : Option Nat
  propRandomize : Option Bool
deriving Repr, DecidableEq

/-- `TraceEventOptions` as passed to `recordEvent`. -/
structure TraceEventOptions where
  taskSlug : String
  attributes : TraceAttrs
  context : Carrier
  spanIdSeed : Option String
  startTime : Option Int
  endTime : Option Int
deriving Repr, DecidableEq

/-- One invocation of `eventRepository.recordEvent`. -/
structure RecordEventCall where
  message : String
  options : TraceEventOptions
deriving Repr, DecidableEq

/-- Everything observable about one `taskRunCompleted` invocation. -/
structure CompletionOutcome where
  attemptStatus : String
  attemptCompletedAt : Option Int
  attemptOutput : Option String
  attemptOutputType : Option String
  attemptError : Option String
  taskSuccesses : Nat
  taskFailures : Nat
  recordedEvent : Option RecordEventCall
  queueAction : QueueAction
deriving Repr, DecidableEq

/-- `taskRunCompleted`, translated from the source: update the attempt row
by `friendlyId` (completed/failed with `completedAt = now`), bump the
matching window counter, and on a failed completion carrying `retry` record
the retry-delay trace event and nack at `retry.timestamp`, else ack. -/
def taskRunCompleted (s : ConsumerState) (defaults : RetryOpts)
    (row : AttemptRowForCompletion) (completion : TaskRunExecutionResult)
    (execution : ExecutionInfo) (now : Int) : CompletionOutcome :=
  let attemptStatus := if completion.ok then "COMPLETED" else "FAILED"
  let successes := if completion.ok then s.taskSuccesses + 1 else s.taskSuccesses
  let failures := if completion.ok then s.taskFailures else s.taskFailures + 1
  let base : CompletionOutcome :=
    { attemptStatus := attemptStatus
      attemptCompletedAt := some now
      attemptOutput := if completion.ok then completion.output else none
      attemptOutputType := if completion.ok then completion.outputType else none
      attemptError := if completion.ok then none else completion.error
      taskSuccesses := successes
      taskFailures := failures
      recordedEvent := none
      queueAction := .ackMsg row.taskRunId }
  match completion.ok, completion.retry with
  | false, some retryTimestamp =>
    let retryConfig : Option RetryOpts :=
      row.retryConfig.map (fun stored => mergeRetryOpts defaults stored)
    let maxAttemptsOpt : Option Nat := retryConfig.bind (fun rc => rc.maxAttempts)
    let message :=
      -- `retryConfig?.maxAttempts ? ... : ...` — a present but zero
      -- maxAttempts is falsy in JavaScript and takes the fallback branch
      match maxAttemptsOpt with
      | some m =>
        if m == 0 then "Retry #" ++ toString execution.attemptNumber ++ " delay"
        else
          "Retry " ++ toString execution.attemptNumber ++ "/" ++ toString (m - 1) ++ " delay"
      | none => "Retry #" ++ toString execution.attemptNumber ++ " delay"
    let options : TraceEventOptions :=
      { taskSlug := row.taskRunTaskIdentifier
        attributes :=
          { runId := some row.taskRunId
            styleIcon := some "schedule-attempt"
            queueId := row.queueId
            queueName := some row.taskRunQueueName
            metaNextAttemptNumber := some (execution.attemptNumber + 1)
            propRetryAt := some retryTimestamp
            propFactor := retryConfig.bind (fun rc => rc.factor)
            propMaxAttempts := maxAttemptsOpt
            propMinTimeoutInMs := retryConfig.bind (fun rc => rc.minTimeoutInMs)
            propMaxTimeoutInMs := retryConfig.bind (fun rc => rc.maxTimeoutInMs)
            propRandomize := retryConfig.bind (fun rc => rc.randomize) }
        context := row.taskRunTraceContext
        spanIdSeed := some ("retry-" ++ toString (row.number + 1))
        startTime := none
        endTime := some retryTimestamp }
    { base with
      recordedEvent := some { message := message, options := options }
      queueAction := .nackMsg row.taskRunId (some retryTimestamp) }
  | _, _ => base

/-- `parseTraceparent`: four dash-separated parts with version `00`. -/
def parseTraceparent (tp : Option String) : Option (String × String) :=
  match tp with
  | none => none
  | some s =>
    match s.splitOn "-" with
    | [version, traceId, spanId, _flags] =>
      if version == "00" then some (traceId, spanId) else none
    | _ => none

/-- `extractContextFromCarrier`. -/
def extractContextFromCarrier (carrier : Carrier) :
    Option (String × String) × Option String :=
  (parseTraceparent carrier.traceparent, carrier.tracestate)

/-- The stored `TaskEvent` fields that the claims inspect.  `recordEvent`
hard-codes the stored style icon to `"play"`; the caller's
`attributes.style` is not read on this code path. -/
structure EventRecord where
  traceId : String
  spanId : String
  parentId : Option String
  tracestate : Option String
  message : String
  startTime : Int
  duration : Int
  styleIconStored : String
  runId : String
  taskSlug : String
  queueId : Option String
  queueName : Option String
deriving Repr, DecidableEq

/-- `EventRepository.recordEvent`.  The sha1-based deterministic span id and
the random id generator live outside the core (node crypto /
opentelemetry); they are passed in as `hashFn`, `randTraceId` and
`randSpanId`.  Duration is `(endTime - startTime)` ms (default 100 ms)
converted to nanoseconds; a missing `runId` throws. -/
def recordEvent (hashFn : String → String → String) (randTraceId randSpanId : String)
    (now : Int) (message : String) (options : TraceEventOptions) :
    Except String EventRecord :=
  let propagated := extractContextFromCarrier options.context
  let startTime := options.startTime.getD now
  let durationInMs :=
    match options.endTime with
    | some endT => endT - startTime
    | none => 100
  let traceId :=
    match propagated.1 with
    | some p => p.1
    | none => randTraceId
  let parentId := propagated.1.map (fun p => p.2)
  let spanId :=
    match options.spanIdSeed with
    | some seed => hashFn traceId seed
    | none => randSpanId
  match options.attributes.runId with
  | none => .error "runId is required"
  | some runId =>
    .ok
      { traceId := traceId
        spanId := spanId
        parentId := parentId
        tracestate := propagated.2
        message := message
        startTime := startTime
        duration := durationInMs * 1000000
        styleIconStored := "play"
        runId := runId
        taskSlug := options.taskSlug
        queueId := options.attributes.queueId
        queueName := options.attributes.queueName }

/-- The store read behind the lock update's `attempts: orderBy number desc,
take 1` include: the greatest attempt number of the run, `none` when the run
has no attempts. -/
def lastAttemptNumberOf (ns : List Nat) : Option Nat :=
  ns.foldl
    (fun acc n =>
      match acc with
      | none => some n
      | some m => some (max m n))
    none

/-- The attempt-number histories a run's attempt set can go through under
the consumer: it starts empty; step 9 of the dispatch loop appends
`nextAttemptNumber` of the stored last attempt (the `orderBy number desc,
take 1` read); the transport-failure transaction deletes the just-created
attempt, which is the last one appended.  Completions only change statuses,
never numbers. -/
inductive AttemptTrace : List Nat → Prop where
  | init : AttemptTrace []
  | create (ns : List Nat) :
      AttemptTrace ns →
      AttemptTrace (ns ++ [nextAttemptNumber ((lastAttemptNumberOf ns).map AttemptSummary.mk)])
  | rollback (ns : List Nat) : AttemptTrace ns → AttemptTrace ns.dropLast

/-- The identifier fields of the sent `EXECUTE_RUNS` message the spec talks
about: `(attempt.id, run.id, queue.id, top-level backgroundWorkerId,
attempt.backgroundWorkerId, attempt.backgroundWorkerTaskId, environment.id,
organization.id, project.id)`. -/
def sentIdFields (o : IterOutcome) :
    Option (String × String × String × String × String × String × String × String × String) :=
  o.sent.map (fun m =>
    (m.execution.attemptId, m.execution.runId, m.execution.queueId, m.backgroundWorkerId,
     m.execution.attemptBackgroundWorkerId, m.execution.attemptBackgroundWorkerTaskId,
     m.execution.environmentId, m.execution.organizationId, m.execution.projectId))

/-- The top-level `backgroundWorkerId` of the sent message. -/
def sentWorkerId (o : IterOutcome) : Option String :=
  o.sent.map (fun m => m.backgroundWorkerId)

/-! Concrete fixtures used by witnesses and counterexamples.  Internal ids
use a `cl` prefix (cuid-style database keys), friendly ids use the
`<entity>_<slug>` shape the friendly-id generator produces. -/

def sampleTask : BackgroundWorkerTask :=
  { id := "cltask111", slug := "send-email", filePath := "/tasks.ts",
    exportName := "sendEmail", workerId := "clworker111", retryConfig := none }

def sampleWorker : BackgroundWorker :=
  { id := "clworker111", friendlyId := "worker_abc123", version := "20240101.1",
    tasks := [sampleTask] }

def sampleEnv : AuthenticatedEnvironment :=
  { id := "clenv111", slug := "prod", type := "PRODUCTION",
    organization := { id := "clorg111", slug := "acme", title := "Acme" },
    project := { id := "clproj111", slug := "web", name := "Web", externalRef := "proj_ref1" } }

def sampleRun : TaskRun :=
  { id := "clrun111", friendlyId := "run_abc123", taskIdentifier := "send-email",
    lockedToVersionId := none, queue := "default-queue", payload := "payload-json",
    payloadType := "application/json", context := "ctx-json", createdAt := 1000,
    traceContext := "tracectx", lockedAt := none, lockedById := none }

def sampleLockedRun : LockedTaskRun :=
  { toTaskRun :=
      { sampleRun with lockedAt := some 5000, lockedById := some "cltask111" }
    lastAttempt := none
    tags := [{ name := "tag-a" }] }

def sampleQueue : TaskQueue :=
  { id := "clqueue111", friendlyId := "queue_abc123", name := "default-queue" }

def sampleSpan : SpanRec :=
  { spanId := 7, attrs := [], exceptions := [], hasEnded := false }

def sampleState : ConsumerState :=
  { env := sampleEnv
    backgroundWorkers := [("clworker111", sampleWorker)]
    enabled := true
    maximumItemsPerTrace := 1000
    traceTimeoutSeconds := 60
    perTraceCountdown := some 1000
    lastNewTrace := some 4000
    currentSpanCtx := some 7
    taskFailures := 0
    taskSuccesses := 0
    currentSpan := some sampleSpan
    endSpanInNextIteration := false }

def sampleMessage : QueueMessage :=
  { messageId := "clrun111", data := .execute "send-email" }

def samplePoisonMessage : QueueMessage :=
  { messageId := "clrun111", data := .malformed "unknown-type" }

def sampleWorldOk : World :=
  { dequeued := .ok (some sampleMessage)
    taskRunRow := .ok (some sampleRun)
    lockResult := .ok (some sampleLockedRun)
    queueRow := .ok (some sampleQueue)
    enabledAtAbortCheck := true
    insertAttempt := .ok ()
    freshAttemptId := "clattempt111"
    freshFriendlyAttemptId := "attempt_abc123"
    sendResult := .ok ()
    now := 5000 }

def sampleWorldSendFail : World :=
  { sampleWorldOk with sendResult := .error "websocket closed" }

def sampleWorldDequeueThrow : World :=
  { sampleWorldOk with dequeued := .error "db connection lost" }

def sampleWorldPoisonParse : World :=
  { sampleWorldOk with dequeued := .ok (some samplePoisonMessage) }

def workerV2 : BackgroundWorker :=
  { id := "clworkerA", friendlyId := "worker_vA", version := "20240101.2", tasks := [] }

def workerV10 : BackgroundWorker :=
  { id := "clworkerB", friendlyId := "worker_vB", version := "20240101.10", tasks := [] }

def c8Task1 : BackgroundWorkerTask :=
  { sampleTask with id := "cltask1", workerId := "clw1" }

def c8Task2 : BackgroundWorkerTask :=
  { sampleTask with id := "cltask2", workerId := "clw2" }

def c8Worker1 : BackgroundWorker :=
  { id := "clw1", friendlyId := "worker_v1", version := "20240101.1", tasks := [c8Task1] }

def c8Worker2 : BackgroundWorker :=
  { id := "clw2", friendlyId := "worker_v2", version := "20240101.2", tasks := [c8Task2] }

/-- The registry after registering `20240101.1` then `20240101.2`. -/
def c8State : ConsumerState :=
  { sampleState with
    backgroundWorkers := mapSet (mapSet [] c8Worker1.id c8Worker1) c8Worker2.id c8Worker2 }

/-- A stored retry config with `maxAttempts = 3` (scenario S2). -/
def c5Stored : RetryOpts :=
  { maxAttempts := some 3, factor := some 2, minTimeoutInMs := some 1000,
    maxTimeoutInMs := some 60000, randomize := some true }

/-- The merge defaults (`defaultRetryOptions` lives in the external core
package; any value works for the claims, which pin the stored fields). -/
def c5Defaults : RetryOpts :=
  { maxAttempts := some 10, factor := some 2, minTimeoutInMs := some 1000,
    maxTimeoutInMs := some 60000, randomize := some true }

/-- The updated attempt row seen by `taskRunCompleted` in scenario S2. -/
def c5Row : AttemptRowForCompletion :=
  { number := 1, taskRunId := "clrun111", queueId := some "clqueue111",
    taskRunTaskIdentifier := "send-email", taskRunQueueName := "default-queue",
    taskRunTraceContext := { traceparent := some "00-traceabc-spandef-01", tracestate := none },
    retryConfig := some c5Stored }

/-- A failed completion carrying a retry timestamp. -/
def c5Completion : TaskRunExecutionResult :=
  { ok := false, id := "attempt_abc123", output := none, outputType := none,
    error := some "task failed", retry := some 99999 }

end EnvConsumer

namespace EnvConsumer

/-! ## Helper lemmas -/

/-- Pushing an Option-valued running maximum through `foldl`. -/
theorem foldlMaxAux (a : Nat) (ns : List Nat) :
    ns.foldl
      (fun acc n =>
        match acc with
        | none => some n
        | some m => some (max m n))
      (some a) = some (ns.foldl max a) := by
  induction ns generalizing a with
  | nil => rfl
  | cons c rest ih => simpa using ih (max a c)

/-- `lastAttemptNumberOf` on a nonempty list is the running maximum. -/
theorem lastAttemptNumberOf_cons (n : Nat) (ns : List Nat) :
    lastAttemptNumberOf (n :: ns) = some (ns.foldl max n) := by
  unfold lastAttemptNumberOf
  simpa using foldlMaxAux n ns

/-- The running maximum is a member bound above by nothing in the list. -/
theorem foldl_max_spec (a : Nat) (ns : List Nat) :
    (ns.foldl max a = a ∨ ns.foldl max a ∈ ns) ∧ a ≤ ns.foldl max a ∧
      ∀ m ∈ ns, m ≤ ns.foldl max a := by
  induction ns generalizing a with
  | nil => exact ⟨Or.inl rfl, le_refl a, by simp⟩
  | cons c rest ih =>
    obtain ⟨hmem, hle, hall⟩ := ih (max a c)
    simp only [List.foldl_cons]
    refine ⟨?_, ?_, ?_⟩
    · rcases hmem with h | h
      · rcases max_choice a c with hm | hm
        · left
          rw [h, hm]
        · right
          rw [h, hm]
          exact List.mem_cons_self c rest
      · right
        exact List.mem_cons_of_mem c h
    · exact le_trans (le_max_left a c) hle
    · intro m hm
      rcases List.mem_cons.mp hm with h | h
      · rw [h]
        exact le_trans (le_max_right a c) hle
      · exact hall m h

/-- `lastAttemptNumberOf` over a snoc. -/
theorem lastAttemptNumberOf_concat (ns : List Nat) (x : Nat) :
    lastAttemptNumberOf (ns ++ [x]) =
      some
        (match lastAttemptNumberOf ns with
        | none => x
        | some m => max m x) := by
  cases ns with
  | nil => rfl
  | cons n rest =>
    rw [List.cons_append, lastAttemptNumberOf_cons, lastAttemptNumberOf_cons,
      List.foldl_append]
    rfl

/-- `lastAttemptNumberOf` of `[1, …, n]` is `n` (or `none` when empty). -/
theorem lastAttemptNumberOf_range (n : Nat) :
    lastAttemptNumberOf (List.range' 1 n) = if n = 0 then none else some n := by
  induction n with
  | zero => rfl
  | succ k ih =>
    rw [List.range'_concat, lastAttemptNumberOf_concat, ih]
    by_cases h0 : k = 0
    · subst h0
      rfl
    · simp only [h0, if_false]
      have hmax : max k (1 + 1 * k) = 1 + 1 * k := max_eq_right (by omega)
      simp only [Nat.succ_ne_zero, if_false]
      rw [hmax]
      congr 1
      omega

/-- Every reachable attempt-number history is exactly `[1, …, n]`. -/
theorem attemptTrace_isRange (ns : List Nat) (h : AttemptTrace ns) :
    ns = List.range' 1 ns.length := by
  induction h with
  | init => rfl
  | create ms hm ih =>
    have hlen :
        (ms ++ [nextAttemptNumber ((lastAttemptNumberOf ms).map AttemptSummary.mk)]).length
          = ms.length + 1 := by simp
    rw [hlen, List.range'_concat, ← ih]
    congr 1
    rw [ih, lastAttemptNumberOf_range]
    by_cases h0 : ms.length = 0
    · simp [h0, nextAttemptNumber]
    · simp only [h0, if_false]
      simp only [Option.map_some', nextAttemptNumber, List.length_range']
      congr 1
      omega
  | rollback ms hm ih =>
    rw [ih]
    cases hn : ms.length with
    | zero => simp
    | succ k =>
      rw [List.range'_concat, List.dropLast_concat]
      simp [List.length_range']

/-- The reduce inside `#getLatestBackgroundWorker` returns a member whose
version bounds every candidate's version from above. -/
theorem latestFoldl_spec (w : BackgroundWorker) (ws : List BackgroundWorker) :
    (ws.foldl (fun acc curr => if acc.version > curr.version then acc else curr) w ∈ w :: ws) ∧
    ∀ u ∈ w :: ws,
      u.version ≤
        (ws.foldl (fun acc curr => if acc.version > curr.version then acc else curr) w).version := by
  induction ws generalizing w with
  | nil =>
    refine ⟨List.mem_cons_self _ _, ?_⟩
    intro u hu
    simp only [List.foldl_nil]
    rcases List.mem_cons.mp hu with h | h
    · rw [h]
    · exact absurd h (List.not_mem_nil u)
  | cons c rest ih =>
    simp only [List.foldl_cons]
    obtain ⟨hmem, hmax⟩ := ih (if w.version > c.version then w else c)
    have hw_le : w.version ≤ (if w.version > c.version then w else c).version := by
      by_cases h : w.version > c.version
      · rw [if_pos h]
      · rw [if_neg h]
        exact le_of_not_lt h
    have hc_le : c.version ≤ (if w.version > c.version then w else c).version := by
      by_cases h : w.version > c.version
      · rw [if_pos h]
        exact le_of_lt h
      · rw [if_neg h]
    have hacc := hmax _ (List.mem_cons_self _ _)
    constructor
    · rcases List.mem_cons.mp hmem with h | h
      · rw [h]
        by_cases hcond : w.version > c.version
        · rw [if_pos hcond]
          exact List.mem_cons_self _ _
        · rw [if_neg hcond]
          exact List.mem_cons_of_mem _ (List.mem_cons_self _ _)
      · exact List.mem_cons_of_mem _ (List.mem_cons_of_mem _ h)
    · intro u hu
      rcases List.mem_cons.mp hu with h | h
      · rw [h]
        exact le_trans hw_le hacc
      · rcases List.mem_cons.mp h with h2 | h2
        · rw [h2]
          exact le_trans hc_le hacc
        · exact hmax u (List.mem_cons_of_mem _ h2)

/-- Lexicographically, `20240101.10 < 20240101.2` (position 9 compares the
characters `1` and `2`). -/
theorem verLt_10_2 : ("20240101.10" : String) < "20240101.2" := by
  rw [String.lt_iff_toList_lt]
  decide

/-- Lexicographically, `20240101.2` is not below `20240101.1`. -/
theorem verNotLt_2_1 : ¬ (("20240101.2" : String) < "20240101.1") := by
  rw [String.lt_iff_toList_lt]
  decide

/-- Replacing the matching entry in place leaves it findable. -/
theorem find?_map_replace (k : String) (v : BackgroundWorker) :
    ∀ (m : List (String × BackgroundWorker)), m.any (fun p => p.1 == k) = true →
      (m.map (fun p => if p.1 == k then (k, v) else p)).find? (fun p => p.1 == k) = some (k, v)
  | [], h => by simp at h
  | p :: rest, h => by
    by_cases hp : (p.1 == k) = true
    · simp only [List.map_cons, hp, if_true]
      exact List.find?_cons_of_pos _ (by simp)
    · have hpf : (p.1 == k) = false := by simpa using hp
      simp only [List.map_cons, hpf, Bool.false_eq_true, if_false]
      rw [List.find?_cons_of_neg _ (by simp [hpf])]
      apply find?_map_replace k v rest
      simpa [List.any_cons, hpf] using h

/-- `Map.set` then `Map.get` on the same key returns the stored value. -/
theorem mapGet_mapSet_self (m : Registry) (k : String) (v : BackgroundWorker) :
    mapGet (mapSet m k v) k = some v := by
  unfold mapGet mapSet
  by_cases hany : m.any (fun p => p.1 == k) = true
  · rw [if_pos hany, find?_map_replace k v m hany]
    rfl
  · have hanyf : m.any (fun p => p.1 == k) = false := Bool.eq_false_iff.mpr hany
    rw [if_neg hany]
    rw [List.find?_append]
    have hnone : m.find? (fun p => p.1 == k) = none := by
      rw [List.find?_eq_none]
      intro x hx hpx
      have hcontra : m.any (fun p => p.1 == k) = true := List.any_eq_true.mpr ⟨x, hx, hpx⟩
      rw [hanyf] at hcontra
      cases hcontra
    rw [hnone]
    simp [List.find?]

/-- The registry built by registering `c8Worker1` then `c8Worker2`. -/
theorem c8_mapValues : mapValues c8State.backgroundWorkers = [c8Worker1, c8Worker2] := rfl

/-! ## Claim theorems -/

/-- Claim C1, counterexample: the claim says every identifier in the
dispatched `EXECUTE_RUNS` payload is a friendly ID.  On a fully successful
iteration the payload's `attempt.backgroundWorkerId` is the worker's
internal database id `"clworker111"`, which differs from the worker's
friendly id `"worker_abc123"`; likewise `environment.id`,
`organization.id`, `project.id` and `attempt.backgroundWorkerTaskId` carry
the internal database ids of those rows. -/
theorem C1_counterexample :
    ((doWorkInternal sampleState sampleWorldOk).sent.map
        (fun m => m.execution.attemptBackgroundWorkerId)) = some "clworker111" ∧
    ((doWorkInternal sampleState sampleWorldOk).sent.map
        (fun m => m.execution.attemptBackgroundWorkerTaskId)) = some "cltask111" ∧
    ((doWorkInternal sampleState sampleWorldOk).sent.map
        (fun m => m.execution.environmentId)) = some "clenv111" ∧
    ((doWorkInternal sampleState sampleWorldOk).sent.map
        (fun m => m.execution.organizationId)) = some "clorg111" ∧
    ((doWorkInternal sampleState sampleWorldOk).sent.map
        (fun m => m.execution.projectId)) = some "clproj111" ∧
    sampleWorker.id = "clworker111" ∧
    sampleWorker.friendlyId = "worker_abc123" ∧
    sampleEnv.id = "clenv111" ∧
    ("clworker111" : String) ≠ "worker_abc123" := by
  refine ⟨rfl, rfl, rfl, rfl, rfl, rfl, rfl, rfl, by decide⟩

/-- Claim C1, amended: on the successful dispatch path the outbound payload
uses friendly IDs for `attempt.id`, `run.id`, `queue.id` and the top-level
`backgroundWorkerId`, while `attempt.backgroundWorkerId`,
`attempt.backgroundWorkerTaskId`, `environment.id`, `organization.id` and
`project.id` are the internal database ids of the worker row, the task row,
and the tenant rows. -/
theorem C1_amended_id_fields (s : ConsumerState) (w : World) (msg : QueueMessage)
    (tid : String) (run : TaskRun) (bw : BackgroundWorker) (bt : BackgroundWorkerTask)
    (lr : LockedTaskRun) (q : TaskQueue)
    (h1 : w.dequeued = .ok (some msg))
    (hp : parseMessageBody msg.data = some tid)
    (h2 : w.taskRunRow = .ok (some run))
    (hw : resolveWorker s.backgroundWorkers run = some bw)
    (ht : bw.tasks.find? (fun task => task.slug == run.taskIdentifier) = some bt)
    (h3 : w.lockResult = .ok (some lr))
    (h4 : w.queueRow = .ok (some q))
    (he : w.enabledAtAbortCheck = true)
    (h5 : w.insertAttempt = .ok ())
    (h6 : w.sendResult = .ok ()) :
    sentIdFields (doWorkInternal s w) =
      some (w.freshFriendlyAttemptId, lr.friendlyId, q.friendlyId, bw.friendlyId,
        bw.id, bt.id, s.env.id, s.env.organization.id, s.env.project.id) := by
  simp only [doWorkInternal, h1, hp, h2, hw, ht, h3, h4, he, h5, h6, sentIdFields,
    Bool.not_true, Bool.false_eq_true, if_false, Option.map_some']

/-- Claim C1, witness: the amended statement evaluated on the concrete
fixture dispatch. -/
theorem C1_witness :
    sentIdFields (doWorkInternal sampleState sampleWorldOk) =
      some ("attempt_abc123", "run_abc123", "queue_abc123", "worker_abc123",
        "clworker111", "cltask111", "clenv111", "clorg111", "clproj111") :=
  C1_amended_id_fields sampleState sampleWorldOk sampleMessage "send-email" sampleRun
    sampleWorker sampleTask sampleLockedRun sampleQueue rfl rfl rfl rfl rfl rfl rfl rfl rfl rfl

/-- Claim C2, counterexample: the claim says no exception ever propagates
out of `#doWork` or `#doWorkInternal`.  Only the transport send is wrapped
in `try`; when the queue dequeue itself rejects, the exception leaves both
methods. -/
theorem C2_counterexample :
    (doWorkInternal sampleState sampleWorldDequeueThrow).exit = .thrown "db connection lost" ∧
    (doWork sampleState sampleWorldDequeueThrow 99).exit = .thrown "db connection lost" := by
  constructor <;> rfl

/-- Claim C2, amended: provided the dequeue, the store reads, the lock
update and the attempt insert resolve without throwing (their results may
still be empty/missing), every iteration either schedules the next
iteration or returns cleanly after a terminal queue action, even when the
transport send throws; exceptions thrown by the dequeue or any store
operation propagate out, since only the send is guarded by `try`. -/
theorem C2_amended_no_throw (s : ConsumerState) (w : World)
    (dq : Option QueueMessage) (tr : Option TaskRun) (lkr : Option LockedTaskRun)
    (qr : Option TaskQueue)
    (h1 : w.dequeued = .ok dq) (h2 : w.taskRunRow = .ok tr)
    (h3 : w.lockResult = .ok lkr) (h4 : w.queueRow = .ok qr)
    (h5 : w.insertAttempt = .ok ()) :
    (doWorkInternal s w).exit = .stopped ∨ ∃ d, (doWorkInternal s w).exit = .reschedule d := by
  rcases dq with _ | msg
  · simp only [doWorkInternal, h1]
    right
    exact ⟨1000, rfl⟩
  · rcases hp : parseMessageBody msg.data with _ | tid
    · simp only [doWorkInternal, h1, hp]
      right
      exact ⟨100, rfl⟩
    · rcases tr with _ | run
      · simp only [doWorkInternal, h1, hp, h2]
        right
        exact ⟨100, rfl⟩
      · rcases hw : resolveWorker s.backgroundWorkers run with _ | bw
        · simp only [doWorkInternal, h1, hp, h2, hw]
          right
          exact ⟨100, rfl⟩
        · rcases ht : bw.tasks.find? (fun task => task.slug == run.taskIdentifier) with _ | bt
          · simp only [doWorkInternal, h1, hp, h2, hw, ht]
            right
            exact ⟨100, rfl⟩
          · rcases lkr with _ | lr
            · simp only [doWorkInternal, h1, hp, h2, hw, ht, h3]
              right
              exact ⟨100, rfl⟩
            · rcases qr with _ | q
              · simp only [doWorkInternal, h1, hp, h2, hw, ht, h3, h4]
                right
                exact ⟨1000, rfl⟩
              · rcases he : w.enabledAtAbortCheck with _ | _
                · simp only [doWorkInternal, h1, hp, h2, hw, ht, h3, h4, he,
                    Bool.not_false, if_true]
                  left
                  rfl
                · rcases h6 : w.sendResult with e | u
                  · simp only [doWorkInternal, h1, hp, h2, hw, ht, h3, h4, he, h5, h6,
                      Bool.not_true, Bool.false_eq_true, if_false]
                    right
                    exact ⟨100, rfl⟩
                  · simp only [doWorkInternal, h1, hp, h2, hw, ht, h3, h4, he, h5, h6,
                      Bool.not_true, Bool.false_eq_true, if_false]
                    right
                    exact ⟨100, rfl⟩

/-- Claim C2, witness: the amended statement on the fixture whose transport
send throws — the iteration still exits with a timed resumption. -/
theorem C2_witness :
    (doWorkInternal sampleState sampleWorldSendFail).exit = .stopped ∨
    ∃ d, (doWorkInternal sampleState sampleWorldSendFail).exit = .reschedule d :=
  C2_amended_no_throw sampleState sampleWorldSendFail (some sampleMessage) (some sampleRun)
    (some sampleLockedRun) (some sampleQueue) rfl rfl rfl rfl rfl

/-- Claim C3: the registry's `latest()` comparison is a raw string compare,
not the numeric two-segment compare the spec requires.  With workers
versioned `20240101.2` and `20240101.10` registered, the code returns the
`20240101.2` worker, while the spec-modelled numeric ordering
(`numericVersionLt`) places `20240101.2` below `20240101.10`. -/
theorem C3_code_lexicographic :
    getLatestBackgroundWorker [workerV2, workerV10] = some workerV2 ∧
    numericVersionLt "20240101.2" "20240101.10" = true := by
  constructor
  · simp only [getLatestBackgroundWorker, List.foldl, workerV2, workerV10]
    rw [if_pos verLt_10_2]
  · decide

/-- Claim C4: when the transport send of `EXECUTE_RUNS` throws, the
iteration records the exception on the current span, sets the
force-rollover flag, transactionally unlocks the run (`lockedAt` and
`lockedById` back to `null`) and deletes the just-created attempt — so no
executing attempt remains and the run is unlocked — nacks the message, and
resumes in ~100 ms. -/
theorem C4_transport_failure_rollback (s : ConsumerState) (w : World)
    (msg : QueueMessage) (tid : String) (run : TaskRun) (bw : BackgroundWorker)
    (bt : BackgroundWorkerTask) (lr : LockedTaskRun) (q : TaskQueue)
    (sp : SpanRec) (e : String)
    (h1 : w.dequeued = .ok (some msg))
    (hp : parseMessageBody msg.data = some tid)
    (h2 : w.taskRunRow = .ok (some run))
    (hw : resolveWorker s.backgroundWorkers run = some bw)
    (ht : bw.tasks.find? (fun task => task.slug == run.taskIdentifier) = some bt)
    (h3 : w.lockResult = .ok (some lr))
    (h4 : w.queueRow = .ok (some q))
    (he : w.enabledAtAbortCheck = true)
    (h5 : w.insertAttempt = .ok ())
    (h6 : w.sendResult = .error e)
    (hsp : s.currentSpan = some sp) :
    (doWorkInternal s w).state.currentSpan =
      some { sp with exceptions := sp.exceptions ++ [e] } ∧
    (doWorkInternal s w).state.endSpanInNextIteration = true ∧
    (doWorkInternal s w).rollback = some (lr.id, w.freshAttemptId) ∧
    (doWorkInternal s w).finalRun =
      some { lr.toTaskRun with lockedAt := none, lockedById := none } ∧
    (doWorkInternal s w).finalAttempts = [] ∧
    (doWorkInternal s w).queueActions = [.nackMsg msg.messageId none] ∧
    (doWorkInternal s w).exit = .reschedule 100 := by
  simp only [doWorkInternal, h1, hp, h2, hw, ht, h3, h4, he, h5, h6, hsp,
    Bool.not_true, Bool.false_eq_true, if_false, Option.map_some']
  refine ⟨?_, ?_, ?_, ?_, ?_, ?_, ?_⟩ <;> trivial

/-- Claim C4, witness: the rollback behaviour evaluated on the concrete
fixture whose send throws `"websocket closed"`. -/
theorem C4_witness :
    (doWorkInternal sampleState sampleWorldSendFail).state.currentSpan =
      some { sampleSpan with exceptions := sampleSpan.exceptions ++ ["websocket closed"] } ∧
    (doWorkInternal sampleState sampleWorldSendFail).state.endSpanInNextIteration = true ∧
    (doWorkInternal sampleState sampleWorldSendFail).rollback =
      some ("clrun111", "clattempt111") ∧
    (doWorkInternal sampleState sampleWorldSendFail).finalRun =
      some { sampleLockedRun.toTaskRun with lockedAt := none, lockedById := none } ∧
    (doWorkInternal sampleState sampleWorldSendFail).finalAttempts = [] ∧
    (doWorkInternal sampleState sampleWorldSendFail).queueActions =
      [.nackMsg "clrun111" none] ∧
    (doWorkInternal sampleState sampleWorldSendFail).exit = .reschedule 100 :=
  C4_transport_failure_rollback sampleState sampleWorldSendFail sampleMessage "send-email"
    sampleRun sampleWorker sampleTask sampleLockedRun sampleQueue sampleSpan
    "websocket closed" rfl rfl rfl rfl rfl rfl rfl rfl rfl rfl rfl

/-- Claim C5: a failed completion with a retry timestamp `T`, a stored
retry config with `maxAttempts = 3`, and attempt number 1 marks the attempt
failed with `completedAt` stamped, invokes the event recording with message
`"Retry 1/2 delay"`, `endTime = T`, style icon `"schedule-attempt"` and
`spanIdSeed = "retry-2"`, and nacks the message with visibility `T`; the
event `recordEvent` then persists has that message, duration
`(T - startTime)` converted to nanoseconds (so its end is `T`), and the
deterministic span id derived from the trace id and seed `"retry-2"`. -/
theorem C5_retry_event_and_nack (s : ConsumerState) (defaults : RetryOpts)
    (row : AttemptRowForCompletion) (completion : TaskRunExecutionResult)
    (execution : ExecutionInfo) (now T : Int) (stored : RetryOpts)
    (hok : completion.ok = false) (hretry : completion.retry = some T)
    (hstored : row.retryConfig = some stored) (hmax : stored.maxAttempts = some 3)
    (hnum : execution.attemptNumber = 1) (hrow : row.number = 1) :
    (taskRunCompleted s defaults row completion execution now).attemptStatus = "FAILED" ∧
    (taskRunCompleted s defaults row completion execution now).attemptCompletedAt = some now ∧
    (taskRunCompleted s defaults row completion execution now).queueAction =
      QueueAction.nackMsg row.taskRunId (some T) ∧
    ∃ call, (taskRunCompleted s defaults row completion execution now).recordedEvent = some call ∧
      call.message = "Retry 1/2 delay" ∧
      call.options.endTime = some T ∧
      call.options.attributes.styleIcon = some "schedule-attempt" ∧
      call.options.spanIdSeed = some "retry-2" ∧
      ∀ (hashFn : String → String → String) (rtid rsid : String),
        ∃ ev, recordEvent hashFn rtid rsid now call.message call.options = .ok ev ∧
          ev.message = "Retry 1/2 delay" ∧
          ev.startTime = now ∧
          ev.duration = (T - now) * 1000000 ∧
          ev.spanId = hashFn ev.traceId "retry-2" := by
  simp only [taskRunCompleted, hok, hretry, hstored, hmax, hnum, hrow, mergeRetryOpts,
    Option.map_some', Option.some_bind, Option.some_orElse, Bool.false_eq_true, if_false]
  refine ⟨trivial, trivial, trivial, ?_⟩
  refine ⟨_, rfl, ?_, rfl, rfl, ?_, ?_⟩
  · simp only []
    decide
  · simp only []
    decide
  · intro hashFn rtid rsid
    refine ⟨_, rfl, ?_, rfl, rfl, rfl⟩
    simp only []
    decide

/-- Claim C5, witness: scenario S2 on concrete fixtures (retry timestamp
`99999`, completion handled at time `777`). -/
theorem C5_witness :
    (taskRunCompleted sampleState c5Defaults c5Row c5Completion ⟨1⟩ 777).attemptStatus
      = "FAILED" ∧
    (taskRunCompleted sampleState c5Defaults c5Row c5Completion ⟨1⟩ 777).attemptCompletedAt
      = some 777 ∧
    (taskRunCompleted sampleState c5Defaults c5Row c5Completion ⟨1⟩ 777).queueAction =
      QueueAction.nackMsg "clrun111" (some 99999) ∧
    ∃ call,
      (taskRunCompleted sampleState c5Defaults c5Row c5Completion ⟨1⟩ 777).recordedEvent
        = some call ∧
      call.message = "Retry 1/2 delay" ∧
      call.options.endTime = some 99999 ∧
      call.options.attributes.styleIcon = some "schedule-attempt" ∧
      call.options.spanIdSeed = some "retry-2" ∧
      ∀ (hashFn : String → String → String) (rtid rsid : String),
        ∃ ev, recordEvent hashFn rtid rsid 777 call.message call.options = .ok ev ∧
          ev.message = "Retry 1/2 delay" ∧
          ev.startTime = 777 ∧
          ev.duration = (99999 - 777) * 1000000 ∧
          ev.spanId = hashFn ev.traceId "retry-2" :=
  C5_retry_event_and_nack sampleState c5Defaults c5Row c5Completion ⟨1⟩ 777 99999 c5Stored
    rfl rfl rfl rfl rfl rfl

/-- Claim C6: each of the five poison outcomes — parse failure, missing run
row, no worker version, no matching task slug, failed lock update — leads
to an ack (never a nack), a ~100 ms resumption, and no attempt row. -/
theorem C6_poison_ack (s : ConsumerState) (w : World) (msg : QueueMessage)
    (h1 : w.dequeued = .ok (some msg))
    (hpoison : parseMessageBody msg.data = none ∨
      (∃ tid, parseMessageBody msg.data = some tid ∧ w.taskRunRow = .ok none) ∨
      (∃ tid run, parseMessageBody msg.data = some tid ∧ w.taskRunRow = .ok (some run) ∧
        resolveWorker s.backgroundWorkers run = none) ∨
      (∃ tid run bw, parseMessageBody msg.data = some tid ∧ w.taskRunRow = .ok (some run) ∧
        resolveWorker s.backgroundWorkers run = some bw ∧
        bw.tasks.find? (fun task => task.slug == run.taskIdentifier) = none) ∨
      (∃ tid run bw bt, parseMessageBody msg.data = some tid ∧
        w.taskRunRow = .ok (some run) ∧
        resolveWorker s.backgroundWorkers run = some bw ∧
        bw.tasks.find? (fun task => task.slug == run.taskIdentifier) = some bt ∧
        w.lockResult = .ok none)) :
    (doWorkInternal s w).queueActions = [.ackMsg msg.messageId] ∧
    (doWorkInternal s w).exit = .reschedule 100 ∧
    (doWorkInternal s w).createdAttempt = none ∧
    (doWorkInternal s w).finalAttempts = [] := by
  rcases hpoison with hp | ⟨tid, hp, h2⟩ | ⟨tid, run, hp, h2, hw⟩ |
    ⟨tid, run, bw, hp, h2, hw, ht⟩ | ⟨tid, run, bw, bt, hp, h2, hw, ht, h3⟩
  · simp only [doWorkInternal, h1, hp, plainOutcome]
    refine ⟨?_, ?_, ?_, ?_⟩ <;> trivial
  · simp only [doWorkInternal, h1, hp, h2, plainOutcome]
    refine ⟨?_, ?_, ?_, ?_⟩ <;> trivial
  · simp only [doWorkInternal, h1, hp, h2, hw, plainOutcome]
    refine ⟨?_, ?_, ?_, ?_⟩ <;> trivial
  · simp only [doWorkInternal, h1, hp, h2, hw, ht, plainOutcome]
    refine ⟨?_, ?_, ?_, ?_⟩ <;> trivial
  · simp only [doWorkInternal, h1, hp, h2, hw, ht, h3, plainOutcome]
    refine ⟨?_, ?_, ?_, ?_⟩ <;> trivial

/-- Claim C6, witness: the parse-failure poison path on a concrete
malformed message. -/
theorem C6_witness :
    (doWorkInternal sampleState sampleWorldPoisonParse).queueActions =
      [.ackMsg "clrun111"] ∧
    (doWorkInternal sampleState sampleWorldPoisonParse).exit = .reschedule 100 ∧
    (doWorkInternal sampleState sampleWorldPoisonParse).createdAttempt = none ∧
    (doWorkInternal sampleState sampleWorldPoisonParse).finalAttempts = [] :=
  C6_poison_ack sampleState sampleWorldPoisonParse samplePoisonMessage rfl (Or.inl rfl)

/-- Claim C7: the attempt created in step 9 is numbered `last + 1` (`1`
when the run has no attempts); the `orderBy number desc, take 1` read is
the maximum existing number; and every reachable attempt-number history —
creations interleaved with transport-failure rollbacks — is exactly
`[1, …, n]`, hence gap-free and duplicate-free. -/
theorem C7_attempt_numbering :
    (∀ (s : ConsumerState) (w : World) (msg : QueueMessage) (tid : String)
        (run : TaskRun) (bw : BackgroundWorker) (bt : BackgroundWorkerTask)
        (lr : LockedTaskRun) (q : TaskQueue),
        w.dequeued = .ok (some msg) →
        parseMessageBody msg.data = some tid →
        w.taskRunRow = .ok (some run) →
        resolveWorker s.backgroundWorkers run = some bw →
        bw.tasks.find? (fun task => task.slug == run.taskIdentifier) = some bt →
        w.lockResult = .ok (some lr) →
        w.queueRow = .ok (some q) →
        w.enabledAtAbortCheck = true →
        w.insertAttempt = .ok () →
        (doWorkInternal s w).createdAttempt.map (fun a => a.number) =
          some (nextAttemptNumber lr.lastAttempt)) ∧
    (∀ ns : List Nat,
        (lastAttemptNumberOf ns = none ↔ ns = []) ∧
        ∀ n, lastAttemptNumberOf ns = some n → n ∈ ns ∧ ∀ m ∈ ns, m ≤ n) ∧
    (∀ ns, AttemptTrace ns → ns = List.range' 1 ns.length ∧ ns.Nodup) := by
  refine ⟨?_, ?_, ?_⟩
  · intro s w msg tid run bw bt lr q h1 hp h2 hw ht h3 h4 he h5
    rcases h6 : w.sendResult with e | u
    · simp only [doWorkInternal, h1, hp, h2, hw, ht, h3, h4, he, h5, h6,
        Bool.not_true, Bool.false_eq_true, if_false, Option.map_some']
    · simp only [doWorkInternal, h1, hp, h2, hw, ht, h3, h4, he, h5, h6,
        Bool.not_true, Bool.false_eq_true, if_false, Option.map_some']
  · intro ns
    cases ns with
    | nil => exact ⟨by simp [lastAttemptNumberOf], by intro n h; cases h⟩
    | cons a rest =>
      constructor
      · simp [lastAttemptNumberOf_cons]
      · intro n h
        rw [lastAttemptNumberOf_cons] at h
        obtain ⟨hmem, hle, hall⟩ := foldl_max_spec a rest
        cases h
        constructor
        · rcases hmem with h2 | h2
          · rw [h2]
            exact List.mem_cons_self a rest
          · exact List.mem_cons_of_mem a h2
        · intro m hm
          rcases List.mem_cons.mp hm with h2 | h2
          · rw [h2]
            exact hle
          · exact hall m h2
  · intro ns h
    exact ⟨attemptTrace_isRange ns h, by
      rw [attemptTrace_isRange ns h]
      exact List.nodup_range' 1 ns.length⟩

/-- Claim C7, witness: a first attempt takes number 1 on the concrete
fixture; the max read and the `[1, 2]` history evaluated concretely. -/
theorem C7_witness :
    (doWorkInternal sampleState sampleWorldOk).createdAttempt.map (fun a => a.number)
      = some 1 ∧
    (2 ∈ [1, 2] ∧ ∀ m ∈ [1, 2], m ≤ 2) ∧
    ([1, 2] = List.range' 1 2 ∧ ([1, 2] : List Nat).Nodup) := by
  refine ⟨?_, ?_, ?_⟩
  · exact C7_attempt_numbering.1 sampleState sampleWorldOk sampleMessage "send-email"
      sampleRun sampleWorker sampleTask sampleLockedRun sampleQueue
      rfl rfl rfl rfl rfl rfl rfl rfl rfl
  · exact (C7_attempt_numbering.2.1 [1, 2]).2 2 (by decide)
  · have h1 : AttemptTrace [1] :=
      AttemptTrace.create [] AttemptTrace.init
    have h2 : AttemptTrace [1, 2] :=
      AttemptTrace.create [1] h1
    exact C7_attempt_numbering.2.2 [1, 2] h2

/-- Claim C8: `latest()` returns a registered worker whose version string
is lexicographically greatest (`undefined` exactly when the registry is
empty); concretely, after registering `20240101.1` then `20240101.2`, the
unpinned fixture run is dispatched against the `20240101.2` worker. -/
theorem C8_latest_selection :
    (∀ ws : List BackgroundWorker, getLatestBackgroundWorker ws = none ↔ ws = []) ∧
    (∀ (ws : List BackgroundWorker) (w : BackgroundWorker),
        getLatestBackgroundWorker ws = some w → w ∈ ws ∧ ∀ u ∈ ws, u.version ≤ w.version) ∧
    sentWorkerId (doWorkInternal c8State sampleWorldOk) = some "worker_v2" := by
  refine ⟨?_, ?_, ?_⟩
  · intro ws
    cases ws <;> simp [getLatestBackgroundWorker]
  · intro ws w h
    cases ws with
    | nil => cases h
    | cons a rest =>
      simp only [getLatestBackgroundWorker, Option.some.injEq] at h
      rw [← h]
      exact latestFoldl_spec a rest
  · have hlatest :
        getLatestBackgroundWorker (mapValues c8State.backgroundWorkers) = some c8Worker2 := by
      rw [c8_mapValues]
      simp only [getLatestBackgroundWorker, List.foldl, c8Worker1, c8Worker2]
      rw [if_neg verNotLt_2_1]
    have hw : resolveWorker c8State.backgroundWorkers sampleRun = some c8Worker2 := hlatest
    simp only [doWorkInternal, sampleWorldOk, sampleMessage, parseMessageBody, hw]
    rfl

/-- Claim C8, witness: the ordering part applied to a concrete singleton
registry. -/
theorem C8_witness :
    workerV2 ∈ [workerV2] ∧ ∀ u ∈ [workerV2], u.version ≤ workerV2.version :=
  C8_latest_selection.2.1 [workerV2] workerV2 rfl

/-- Claim C9: with the window stamped at `t`, the rollover condition holds
exactly when the countdown reached 0, the elapsed time exceeds the timeout,
no span context is open, or the force-rollover flag is set; on rollover
with a span open that span is annotated with the period failure and success
counters and ended, a fresh span is opened, and countdown, counters, flag
and timestamp are reset; with the condition false the window is untouched. -/
theorem C9_window_rollover (s : ConsumerState) (t now : Int) (freshSpanId : Nat)
    (hlt : s.lastNewTrace = some t) :
    (traceExpired s now = true ↔
      (s.perTraceCountdown = some 0 ∨ (s.traceTimeoutSeconds : Int) * 1000 < now - t ∨
        s.currentSpanCtx = none ∨ s.endSpanInNextIteration = true)) ∧
    (∀ sp, traceExpired s now = true → s.currentSpan = some sp →
      doWorkWindowStep s now freshSpanId =
        ({ s with
            currentSpan := some { spanId := freshSpanId, attrs := [], exceptions := [], hasEnded := false }
            currentSpanCtx := some freshSpanId
            perTraceCountdown := some s.maximumItemsPerTrace
            lastNewTrace := some now
            taskFailures := 0
            taskSuccesses := 0
            endSpanInNextIteration := false },
          some { sp with
            attrs := sp.attrs ++
              [("tasks.period.failures", s.taskFailures), ("tasks.period.successes", s.taskSuccesses)]
            hasEnded := true })) ∧
    (traceExpired s now = false → doWorkWindowStep s now freshSpanId = (s, none)) := by
  refine ⟨?_, ?_, ?_⟩
  · unfold traceExpired
    rw [hlt]
    simp [Bool.or_eq_true, decide_eq_true_eq, beq_iff_eq]
    tauto
  · intro sp hexp hsp
    simp [doWorkWindowStep, hexp, hsp, closeSpan]
  · intro hexp
    simp [doWorkWindowStep, hexp]

/-- Claim C9, witness: the fixture window (stamped at `4000`, timeout 60 s)
rolled over at time `70000`. -/
theorem C9_witness :
    traceExpired sampleState 70000 = true ∧
    doWorkWindowStep sampleState 70000 42 =
      ({ sampleState with
          currentSpan := some { spanId := 42, attrs := [], exceptions := [], hasEnded := false }
          currentSpanCtx := some 42
          perTraceCountdown := some sampleState.maximumItemsPerTrace
          lastNewTrace := some 70000
          taskFailures := 0
          taskSuccesses := 0
          endSpanInNextIteration := false },
        some { sampleSpan with
          attrs := sampleSpan.attrs ++
            [("tasks.period.failures", sampleState.taskFailures),
              ("tasks.period.successes", sampleState.taskSuccesses)]
          hasEnded := true }) :=
  ⟨by decide,
    (C9_window_rollover sampleState 4000 70000 42 rfl).2.1 sampleSpan (by decide) rfl⟩

/-- Claim C10: registering a worker while the consumer is already enabled
overwrites the registry entry (the stored worker is findable under its id)
and changes nothing else: countdown, counters, timestamp, span state and
flag keep their values, and no new iteration chain is started (the returned
boolean is false because `#enable` early-returns). -/
theorem C10_register_while_enabled (s : ConsumerState) (bw : BackgroundWorker) (now : Int)
    (h : s.enabled = true) :
    registerBackgroundWorker s (some bw) now =
      ({ s with backgroundWorkers := mapSet s.backgroundWorkers bw.id bw }, false) ∧
    mapGet (mapSet s.backgroundWorkers bw.id bw) bw.id = some bw := by
  constructor
  · simp [registerBackgroundWorker, enableConsumer, h]
  · exact mapGet_mapSet_self s.backgroundWorkers bw.id bw

/-- Claim C10, witness: registering `workerV2` into the already-enabled
fixture state. -/
theorem C10_witness :
    registerBackgroundWorker sampleState (some workerV2) 123 =
      ({ sampleState with
          backgroundWorkers := mapSet sampleState.backgroundWorkers workerV2.id workerV2 },
        false) ∧
    mapGet (mapSet sampleState.backgroundWorkers workerV2.id workerV2) workerV2.id =
      some workerV2 :=
  C10_register_while_enabled sampleState workerV2 123 rfl

end EnvConsumer
